import Mathlib

/-!
Shallow embedding of the go-rest routing core (package `rest`, file `rest.go`).

The embedding follows `rest.go` line by line:
- `Rest`, `New`, `findNode` and `ServeHTTP` are translated from the source.
- `node.match`, `newNode`, `initService` and `newContent` live in files of the
  repository that are not part of the sources at hand; they appear here as
  abstract parameters (functions returning `Except`), and where a claim needs
  their behaviour, a definition modelled from the spec is provided and marked
  as such in its doc comment.
- The pluggable marshaller and the HTTP transport are external collaborators;
  a response is modelled as the ordered list of write events: the handler's own
  writes, and the dispatcher's `http.Error` calls.
-/

set_option autoImplicit false

namespace GoRest

/-- An argument value captured from the path or decoded from the body
(`reflect.Value` of string or integer kind in the source). -/
inductive Value where
  | str (s : String)
  | int (n : Int)
  deriving DecidableEq, Repr

/-- The part of `http.Request` that `ServeHTTP` and `findNode` consult:
`r.Method`, `r.URL.Path` and `r.Body`. -/
structure Request where
  method : String
  urlPath : String
  body : String
  deriving DecidableEq, Repr

/-- Outcome of invoking the bound handler (`node.handle`): it performs a list
of response writes and then either returns normally or panics with a message. -/
inductive HOutcome where
  | ok (writes : List String)
  | panicked (writes : List String) (msg : String)
  deriving DecidableEq, Repr

/-- A write event on the response: either bytes the handler wrote itself, or a
dispatcher-level `http.Error(w, body, code)`. -/
inductive Event where
  | hWrite (s : String)
  | httpError (code : Nat) (body : String)
  deriving DecidableEq, Repr

/-- The request context built by `newContent`: for dispatch the only capability
used is `ctx.marshaller.Unmarshal`, modelled as a function from the declared
request type's name and the body text to a decoded value or an error. -/
structure Ctx where
  unmarshal : String → String → Except String Value

/-- A compiled route (`node` in the source). `pathMatchString` is
`h.path.MatchString`, `matchFn` is `node.match` (method, path → captured
arguments or a conversion error), `request` is the optional request-body type
(`node.request`, identified by its printed name), and `handle` is the bound
handler invocation `node.handle` as a function of the argument list. -/
structure node where
  method : String
  pathMatchString : String → Bool
  matchFn : String → String → Except String (List Value)
  request : Option String
  handle : List Value → HOutcome

/-- The router (`Rest` struct in the source). `pre` is the `prefix` field. -/
structure Rest where
  pre : String
  defaultCharset : String
  defaultMime : String
  handlers : List node

/-- The loop body of `findNode`: try handlers in order, skip on method
mismatch, return the first whose compiled path matches. -/
def findNodeList (r : Request) : List node → Option node
  | [] => none
  | h :: t =>
    if h.method ≠ r.method then findNodeList r t
    else if h.pathMatchString r.urlPath then some h
    else findNodeList r t

/-- Translation of `Rest.findNode`. -/
def findNode (s : Rest) (r : Request) : Option node :=
  findNodeList r s.handlers

/-- The local variables of `ServeHTTP` as they stand when the function body
returns and the deferred error reporter runs: the `err` and `errorCode`
variables, the argument list passed to `node.handle` if the handler was
reached, and the handler's outcome if it ran. -/
structure ServeState where
  err : Option String
  errorCode : Nat
  calledArgs : Option (List Value)
  outcome : Option HOutcome

/-- The body of `Rest.ServeHTTP` before the deferred function runs, translated
statement by statement. `nc` is the pair returned by
`newContent(w, r, s.defaultMime, s.defaultCharset)`: the context value and the
error value. Note the translation keeps the source's test `if err != nil`
after the `newContent` call, where `err` is the outer variable (still `nil` on
every path reaching that line) and not the error `e` that `newContent`
returned. -/
def serveBody (s : Rest) (nc : Ctx × Option String) (r : Request) : ServeState :=
  let err : Option String := none
  match findNode s r with
  | none =>
    { err := some ("can't find node to process " ++ r.urlPath), errorCode := 404
      calledArgs := none, outcome := none }
  | some nd =>
    match nd.matchFn r.method r.urlPath with
    | Except.error e =>
      { err := some e, errorCode := 404, calledArgs := none, outcome := none }
    | Except.ok args =>
      let ctx := nc.1
      let e := nc.2
      if err.isSome then
        { err := e, errorCode := 400, calledArgs := none, outcome := none }
      else
        match nd.request with
        | some req =>
          match ctx.unmarshal req r.body with
          | Except.error msg =>
            { err := some ("can't marshal request to type " ++ req ++ ": " ++ msg)
              errorCode := 400, calledArgs := none, outcome := none }
          | Except.ok v =>
            let fullArgs := args ++ [v]
            { err := none, errorCode := 0, calledArgs := some fullArgs
              outcome := some (nd.handle fullArgs) }
        | none =>
          { err := none, errorCode := 0, calledArgs := some args
            outcome := some (nd.handle args) }

/-- The response writes the handler itself performed, in order. -/
def handlerWrites : Option HOutcome → List Event
  | some (HOutcome.ok ws) => ws.map Event.hWrite
  | some (HOutcome.panicked ws _) => ws.map Event.hWrite
  | none => []

/-- The observable result of a dispatch: the ordered write events on the
response, and the argument list the handler received (or `none` when the
handler was never invoked). -/
structure DispatchResult where
  events : List Event
  handlerArgs : Option (List Value)
  deriving DecidableEq, Repr

/-- The deferred function of `ServeHTTP`: `recover()` is non-nil exactly when
the handler panicked, in which case `errorCode` becomes 500 and `err` becomes
`"panic: " ++ message`; afterwards a non-nil `err` is written with
`http.Error(w, err.Error(), errorCode)`. -/
def serveDefer (st : ServeState) : DispatchResult :=
  match st.outcome with
  | some (HOutcome.panicked _ msg) =>
    { events := handlerWrites st.outcome ++ [Event.httpError 500 ("panic: " ++ msg)]
      handlerArgs := st.calledArgs }
  | _ =>
    match st.err with
    | some m =>
      { events := handlerWrites st.outcome ++ [Event.httpError st.errorCode m]
        handlerArgs := st.calledArgs }
    | none =>
      { events := handlerWrites st.outcome, handlerArgs := st.calledArgs }

/-- Translation of `Rest.ServeHTTP`: run the body, then the deferred error
reporter. -/
def serveHTTP (s : Rest) (nc : Ctx × Option String) (r : Request) : DispatchResult :=
  serveDefer (serveBody s nc r)

/-- Go methods on `Rest` take the receiver by value (`func (s Rest) ServeHTTP`):
the router observable after a call is the receiver itself. The pair returned
here makes that frame condition explicit. -/
def serveHTTPFull (s : Rest) (nc : Ctx × Option String) (r : Request) :
    DispatchResult × Rest :=
  (serveHTTP s nc r, s)

/-- The status codes of the `http.Error` calls the dispatcher itself made. -/
def errorStatuses (d : DispatchResult) : List Nat :=
  d.events.filterMap fun e =>
    match e with
    | Event.httpError c _ => some c
    | Event.hWrite _ => none

/-- One declared field of the service struct, as `New` inspects it through
reflection: its name, whether its value implements `nodeInterface`
(`Processor`/`Streaming`), and its struct tag as key/value pairs. -/
structure Field where
  name : String
  isNode : Bool
  tag : List (String × String)
  deriving DecidableEq, Repr

/-- The service struct type: its name and its declared fields in order. -/
structure ServiceType where
  name : String
  fields : List Field
  deriving DecidableEq, Repr

/-- Go's `Type.FieldByName`: the first field with the given name, together
with its declaration index (`Index[0]` for a flat struct). -/
def fieldByName : List Field → String → Option (Nat × Field)
  | [], _ => none
  | f :: fs, nm =>
    if f.name = nm then some (0, f)
    else
      match fieldByName fs nm with
      | some (i, g) => some (i + 1, g)
      | none => none

/-- The field loop of `New`: fields whose value is not a `nodeInterface` are
skipped; `newNode` is called on the rest, and its first error aborts
construction. -/
def buildNodes (newNode : String → Field → Except String node) (pre : String) :
    List Field → Except String (List node)
  | [] => Except.ok []
  | f :: fs =>
    if f.isNode then
      match newNode pre f with
      | Except.error e => Except.error e
      | Except.ok nd =>
        match buildNodes newNode pre fs with
        | Except.error e => Except.error e
        | Except.ok nds => Except.ok (nd :: nds)
    else buildNodes newNode pre fs

/-- Translation of `New` for a struct (or pointer-to-struct) input, the only
inputs that pass the kind check at its top. `initService` and `newNode` are
the constructors from the service and node files of the repository, abstracted
as parameters; `initService` yields (prefix, mime, charset) from the anchor
field's tag. The result is either an error or a fully built `Rest`; the source
returns `nil, err` on every error path. -/
def New (initService : List (String × String) → Except String (String × String × String))
    (newNode : String → Field → Except String node)
    (t : ServiceType) : Except String Rest :=
  match fieldByName t.fields "Service" with
  | none => Except.error "can't find restful.Service field"
  | some (idx, serviceField) =>
    if idx ≠ 0 then
      Except.error (t.name ++ "'s 1st field must be restful.Service")
    else
      match initService serviceField.tag with
      | Except.error e => Except.error e
      | Except.ok (pre, mime, charset) =>
        match buildNodes newNode pre t.fields with
        | Except.error e => Except.error e
        | Except.ok hs =>
          Except.ok { pre := pre, defaultMime := mime, defaultCharset := charset
                      handlers := hs }

/-- Go's `StructTag.Get`: the value of the first entry with the given key. -/
def tagGet (tag : List (String × String)) (key : String) : Option String :=
  match tag.find? (fun kv => kv.1 = key) with
  | some kv => some kv.2
  | none => none

/-- Modelled from the spec: the tag-parsing half of `newNode` (file not under
the sources at hand) derives the handler name from the `func` tag, "defaulting
to \"Handle\"+FieldName" (spec 4.1). -/
def handlerName (tag : List (String × String)) (fieldName : String) : String :=
  match tagGet tag "func" with
  | some f => f
  | none => "Handle" ++ fieldName

/-- Modelled from the spec: the handler binder (spec 4.3) "resolves the
handler name to a concrete function in the service's behavior set", i.e. looks
the derived name up among the service's methods. -/
def bindHandler {α : Type} (methods : List (String × α))
    (tag : List (String × String)) (fieldName : String) : Option α :=
  match methods.find? (fun m => m.1 = handlerName tag fieldName) with
  | some m => some m.2
  | none => none

/-- Whether a route accepts the request: its declared method equals the
request method and its compiled path pattern matches the request path. -/
abbrev nodeMatches (h : node) (r : Request) : Prop :=
  h.method = r.method ∧ h.pathMatchString r.urlPath = true

/-! Concrete instances used to evaluate the development on closed inputs.
String parsing is done over `String.data` so that every instance evaluates
inside the kernel. -/

/-- The numeric value of a decimal digit character, if it is one. -/
def charDigit? (c : Char) : Option Nat :=
  let n := c.toNat
  if 48 ≤ n ∧ n ≤ 57 then some (n - 48) else none

/-- Accumulating decimal parse of a character list; fails on any non-digit. -/
def natOfDigitsAux : List Char → Nat → Option Nat
  | [], acc => some acc
  | c :: cs, acc =>
    match charDigit? c with
    | some d => natOfDigitsAux cs (acc * 10 + d)
    | none => none

/-- Parse of a non-empty string of decimal digits, the essence of the
`strconv` integer conversion applied to a captured segment. -/
def strToInt? (s : String) : Option Int :=
  match s.data with
  | [] => none
  | cs => (natOfDigitsAux cs 0).map Int.ofNat

/-- Whether the second character list is a prefix of the first. -/
def listStarts : List Char → List Char → Bool
  | _, [] => true
  | [], _ :: _ => false
  | a :: as, b :: bs => if a = b then listStarts as bs else false

/-- Whether `pat` starts the string `s`. -/
def strStarts (s pat : String) : Bool := listStarts s.data pat.data

/-- A context whose marshaller decodes a decimal integer body and rejects
anything else. -/
def ctxEx : Ctx :=
  { unmarshal := fun _ body =>
      match strToInt? body with
      | some n => Except.ok (Value.int n)
      | none => Except.error "invalid body" }

/-- A router with no routable fields. -/
def sEmpty : Rest :=
  { pre := "", defaultCharset := "", defaultMime := "", handlers := [] }

/-- A GET request for a path no route matches. -/
def rGet : Request := { method := "GET", urlPath := "/x", body := "" }

/-- Modelled from the spec: `node.match` (the node file is not under the
sources at hand) converts each captured segment into the declared argument
kind; for an integer-kind slot a non-numeric segment is a request-time
conversion error (spec 4.2). This is the match function of a route
`path:"/hello/:id"` whose handler parameter has integer kind: the segment
after "/hello/" is converted to an integer. -/
def intSegMatch (p : String) : Except String (List Value) :=
  let seg := p.drop 7
  match strToInt? seg with
  | some n => Except.ok [Value.int n]
  | none => Except.error ("need int, got " ++ seg)

/-- A route `method:"GET" path:"/hello/:id"` with an integer capture slot. -/
def exNodeInt : node :=
  { method := "GET"
    pathMatchString := fun p => strStarts p "/hello/"
    matchFn := fun _ p => intSegMatch p
    request := none
    handle := fun _ => HOutcome.ok ["done"] }

/-- A router holding only the integer-capture route. -/
def exRestInt : Rest :=
  { pre := "/prefix", defaultCharset := "utf-8", defaultMime := "application/json"
    handlers := [exNodeInt] }

/-- A request whose captured segment is not a valid integer. -/
def reqHelloAbc : Request := { method := "GET", urlPath := "/hello/abc", body := "" }

/-- A request whose captured segment is the integer 42. -/
def reqHello42 : Request := { method := "GET", urlPath := "/hello/42", body := "" }

/-- A route whose handler panics without writing anything first. -/
def exNodePanic : node :=
  { method := "GET"
    pathMatchString := fun _ => true
    matchFn := fun _ _ => Except.ok []
    request := none
    handle := fun _ => HOutcome.panicked [] "boom" }

/-- A router holding only the panicking route. -/
def sPanic : Rest :=
  { pre := "", defaultCharset := "", defaultMime := "", handlers := [exNodePanic] }

/-- A route whose handler writes part of a response and then panics. -/
def exNodeWP : node :=
  { method := "GET"
    pathMatchString := fun _ => true
    matchFn := fun _ _ => Except.ok []
    request := none
    handle := fun _ => HOutcome.panicked ["partial"] "boom" }

/-- A router holding only the write-then-panic route. -/
def sWP : Rest :=
  { pre := "", defaultCharset := "", defaultMime := "", handlers := [exNodeWP] }

/-- A POST route that declares a request-body type and captures one string
path argument. -/
def exNodeBody : node :=
  { method := "POST"
    pathMatchString := fun _ => true
    matchFn := fun _ _ => Except.ok [Value.str "rest"]
    request := some "HelloArg"
    handle := fun _ => HOutcome.ok ["stored"] }

/-- A router holding only the body-declaring route. -/
def sBody : Rest :=
  { pre := "", defaultCharset := "", defaultMime := "", handlers := [exNodeBody] }

/-- A POST request with a decodable (integer) body. -/
def reqPostOk : Request := { method := "POST", urlPath := "/hello", body := "42" }

/-- A POST request whose body the marshaller rejects. -/
def reqPostBad : Request := { method := "POST", urlPath := "/hello", body := "x" }

/-- A service struct type whose declared fields lack the `Service` anchor. -/
def tNoService : ServiceType :=
  { name := "Example"
    fields := [{ name := "CreateHello", isNode := true
                 tag := [("method", "POST"), ("path", "/hello")] }] }

/-- A trivial `initService` standing in for the missing service file. -/
def initService0 (_ : List (String × String)) :
    Except String (String × String × String) :=
  Except.ok ("/prefix", "application/json", "utf-8")

/-- A trivial `newNode` standing in for the missing node file. -/
def newNode0 (_ : String) (_ : Field) : Except String node :=
  Except.ok exNodeInt

/-- The method set of the `RestExample` service from the repository's test
file, with methods identified by numbers. -/
def exampleMethods : List (String × Nat) :=
  [("HandleCreateHello", 1), ("HandleHello", 2), ("HandleWatch", 3)]

/-- The struct tag of the `CreateHello` field of `RestExample`. -/
def createHelloTag : List (String × String) := [("method", "POST"), ("path", "/hello")]

/-! Helper lemmas. -/

theorem findNodeList_cons (r : Request) (h : node) (t : List node) :
    findNodeList r (h :: t) =
      if nodeMatches h r then some h else findNodeList r t := by
  by_cases hm : h.method = r.method
  · by_cases hp : h.pathMatchString r.urlPath = true
    · simp [findNodeList, nodeMatches, hm, hp]
    · simp [findNodeList, nodeMatches, hm, hp]
  · simp [findNodeList, nodeMatches, hm]

theorem findNodeList_first_iff (r : Request) (l : List node) (nd : node) :
    findNodeList r l = some nd ↔
      ∃ pre post, l = pre ++ nd :: post ∧ nodeMatches nd r ∧
        ∀ h ∈ pre, ¬ nodeMatches h r := by
  induction l with
  | nil =>
    constructor
    · intro h
      simp [findNodeList] at h
    · rintro ⟨pre, post, hl, -, -⟩
      exact absurd hl (by simp)
  | cons h t ih =>
    rw [findNodeList_cons]
    by_cases hm : nodeMatches h r
    · rw [if_pos hm]
      constructor
      · intro he
        injection he with he
        subst he
        exact ⟨[], t, rfl, hm, by simp⟩
      · rintro ⟨pre, post, hl, hnd, hpre⟩
        cases pre with
        | nil =>
          simp only [List.nil_append, List.cons.injEq] at hl
          rw [hl.1]
        | cons p ps =>
          simp only [List.cons_append, List.cons.injEq] at hl
          rw [hl.1] at hm
          exact absurd hm (hpre p (by simp))
    · rw [if_neg hm, ih]
      constructor
      · rintro ⟨pre, post, hl, hnd, hpre⟩
        refine ⟨h :: pre, post, by rw [hl, List.cons_append], hnd, ?_⟩
        intro x hx
        rcases List.mem_cons.mp hx with hx1 | hx2
        · rw [hx1]; exact hm
        · exact hpre x hx2
      · rintro ⟨pre, post, hl, hnd, hpre⟩
        cases pre with
        | nil =>
          simp only [List.nil_append, List.cons.injEq] at hl
          rw [← hl.1] at hnd
          exact absurd hnd hm
        | cons p ps =>
          simp only [List.cons_append, List.cons.injEq] at hl
          exact ⟨ps, post, hl.2, hnd, fun x hx => hpre x (List.mem_cons_of_mem _ hx)⟩

theorem serveBody_err_of_outcome (s : Rest) (nc : Ctx × Option String)
    (r : Request) (o : HOutcome) (h : (serveBody s nc r).outcome = some o) :
    (serveBody s nc r).err = none := by
  unfold serveBody at h ⊢
  split at h
  · simp at h
  · split at h
    · simp at h
    · simp only [Option.isSome_none, Bool.false_eq_true, if_false] at h ⊢
      split at h
      · split at h
        · simp at h
        · rfl
      · rfl

theorem serveDefer_handlerArgs (st : ServeState) :
    (serveDefer st).handlerArgs = st.calledArgs := by
  unfold serveDefer
  split
  · rfl
  · split <;> rfl

theorem serveHTTP_handlerArgs (s : Rest) (nc : Ctx × Option String) (r : Request) :
    (serveHTTP s nc r).handlerArgs = (serveBody s nc r).calledArgs :=
  serveDefer_handlerArgs (serveBody s nc r)

/-! Claim theorems. -/

/-- C2: the route `findNode` selects for dispatch is exactly the first route
in field-declaration order whose declared HTTP method equals the request
method and whose compiled path pattern matches the request path; there is no
specificity-based reordering, so among overlapping patterns the
first-declared route wins. -/
theorem c2_findNode_first_declared (s : Rest) (r : Request) (nd : node) :
    findNode s r = some nd ↔
      ∃ pre post, s.handlers = pre ++ nd :: post ∧ nodeMatches nd r ∧
        ∀ h ∈ pre, ¬ nodeMatches h r :=
  findNodeList_first_iff r s.handlers nd

/-- C5: a request whose method and path match no declared route gets a single
dispatcher write, `http.Error` with status 404 and a body naming the unmatched
path, and the handler is never invoked. -/
theorem c5_unmatched_404 (s : Rest) (nc : Ctx × Option String) (r : Request)
    (h : findNode s r = none) :
    serveHTTP s nc r =
      { events := [Event.httpError 404 ("can't find node to process " ++ r.urlPath)]
        handlerArgs := none } := by
  simp [serveHTTP, serveBody, serveDefer, h, handlerWrites]

/-- Witness for C5 on the empty router. -/
theorem c5_unmatched_404_witness :
    findNode sEmpty rGet = none ∧
    serveHTTP sEmpty (ctxEx, none) rGet =
      { events := [Event.httpError 404 "can't find node to process /x"]
        handlerArgs := none } :=
  ⟨rfl, c5_unmatched_404 sEmpty (ctxEx, none) rGet rfl⟩

/-- C1 counterexample: on the integer-capture route, a request whose captured
segment is not a valid integer makes `node.match` return a conversion error,
and the dispatcher then responds 404, not 400 (`rest.go` pairs the match error
with `http.StatusNotFound`). -/
theorem c1_counterexample :
    exNodeInt.matchFn reqHelloAbc.method reqHelloAbc.urlPath =
      Except.error "need int, got abc" ∧
    errorStatuses (serveHTTP exRestInt (ctxEx, none) reqHelloAbc) = [404] ∧
    ¬ (400 ∈ errorStatuses (serveHTTP exRestInt (ctxEx, none) reqHelloAbc)) := by
  refine ⟨rfl, rfl, fun hmem => ?_⟩
  have h4 : errorStatuses (serveHTTP exRestInt (ctxEx, none) reqHelloAbc) = [404] := rfl
  rw [h4] at hmem
  simp at hmem

/-- C1 amended: when `node.match` returns a conversion error, `ServeHTTP`
responds with status 404 carrying that error as body, the handler is never
invoked, and no panic occurs (the dispatch is a single `http.Error` write). -/
theorem c1_match_error_404 (s : Rest) (nc : Ctx × Option String) (r : Request)
    (nd : node) (e : String)
    (hfind : findNode s r = some nd)
    (hmatch : nd.matchFn r.method r.urlPath = Except.error e) :
    serveHTTP s nc r = { events := [Event.httpError 404 e], handlerArgs := none } := by
  simp [serveHTTP, serveBody, serveDefer, hfind, hmatch, handlerWrites]

/-- Witness for the amended C1 on the integer-capture route. -/
theorem c1_match_error_404_witness :
    findNode exRestInt reqHelloAbc = some exNodeInt ∧
    exNodeInt.matchFn reqHelloAbc.method reqHelloAbc.urlPath =
      Except.error "need int, got abc" ∧
    serveHTTP exRestInt (ctxEx, none) reqHelloAbc =
      { events := [Event.httpError 404 "need int, got abc"], handlerArgs := none } :=
  ⟨rfl, rfl, c1_match_error_404 exRestInt (ctxEx, none) reqHelloAbc exNodeInt
    "need int, got abc" rfl rfl⟩

/-- C3: for every request whose handler ran and panicked — on any route,
whether or not it declares a request-body type — the panic is recovered by the
deferred function: the response is the handler's own writes followed by
`http.Error` with status 500 whose body embeds the panic message, and the
router value after the call is the untouched receiver, so subsequent requests
dispatch against the same router. -/
theorem c3_panic_recovered_500 (s : Rest) (nc : Ctx × Option String) (r : Request)
    (ws : List String) (msg : String)
    (h : (serveBody s nc r).outcome = some (HOutcome.panicked ws msg)) :
    serveHTTPFull s nc r =
      ({ events := ws.map Event.hWrite ++ [Event.httpError 500 ("panic: " ++ msg)]
         handlerArgs := (serveBody s nc r).calledArgs }, s) := by
  simp [serveHTTPFull, serveHTTP, serveDefer, h, handlerWrites]

/-- Witness for C3 on the panicking route. -/
theorem c3_panic_recovered_500_witness :
    (serveBody sPanic (ctxEx, none) rGet).outcome =
      some (HOutcome.panicked [] "boom") ∧
    serveHTTPFull sPanic (ctxEx, none) rGet =
      ({ events := [Event.httpError 500 "panic: boom"], handlerArgs := some [] }, sPanic) :=
  ⟨rfl, c3_panic_recovered_500 sPanic (ctxEx, none) rGet [] "boom" rfl⟩

/-- C4: when the matched route declares a request-body type and the marshaller
fails to decode the body, the dispatch is a single `http.Error` write with
status 400, and the handler is never invoked. -/
theorem c4_decode_failure_400 (s : Rest) (nc : Ctx × Option String) (r : Request)
    (nd : node) (args : List Value) (ty m : String)
    (hfind : findNode s r = some nd)
    (hmatch : nd.matchFn r.method r.urlPath = Except.ok args)
    (hreq : nd.request = some ty)
    (hdec : nc.1.unmarshal ty r.body = Except.error m) :
    serveHTTP s nc r =
      { events := [Event.httpError 400
          ("can't marshal request to type " ++ ty ++ ": " ++ m)]
        handlerArgs := none } := by
  simp [serveHTTP, serveBody, serveDefer, hfind, hmatch, hreq, hdec, handlerWrites]

/-- Witness for C4 on the body-declaring route and an undecodable body. -/
theorem c4_decode_failure_400_witness :
    ctxEx.unmarshal "HelloArg" reqPostBad.body = Except.error "invalid body" ∧
    serveHTTP sBody (ctxEx, none) reqPostBad =
      { events := [Event.httpError 400
          "can't marshal request to type HelloArg: invalid body"]
        handlerArgs := none } :=
  ⟨rfl, c4_decode_failure_400 sBody (ctxEx, none) reqPostBad exNodeBody
    [Value.str "rest"] "HelloArg" "invalid body" rfl rfl rfl rfl⟩

/-- C8: when the matched route declares a request-body type and the body
decodes successfully, the handler receives exactly the path-captured arguments
in order followed by the decoded body value as one trailing argument. -/
theorem c8_body_trailing_arg (s : Rest) (nc : Ctx × Option String) (r : Request)
    (nd : node) (args : List Value) (ty : String) (v : Value)
    (hfind : findNode s r = some nd)
    (hmatch : nd.matchFn r.method r.urlPath = Except.ok args)
    (hreq : nd.request = some ty)
    (hdec : nc.1.unmarshal ty r.body = Except.ok v) :
    (serveHTTP s nc r).handlerArgs = some (args ++ [v]) := by
  rw [serveHTTP_handlerArgs]
  simp [serveBody, hfind, hmatch, hreq, hdec]

/-- Witness for C8 on the body-declaring route and a decodable body. -/
theorem c8_body_trailing_arg_witness :
    ctxEx.unmarshal "HelloArg" reqPostOk.body = Except.ok (Value.int 42) ∧
    (serveHTTP sBody (ctxEx, none) reqPostOk).handlerArgs =
      some [Value.str "rest", Value.int 42] :=
  ⟨rfl, c8_body_trailing_arg sBody (ctxEx, none) reqPostOk exNodeBody
    [Value.str "rest"] "HelloArg" (Value.int 42) rfl rfl rfl rfl⟩

/-- C7 counterexample: a handler that writes part of a response and then
panics: the deferred error reporter still calls `http.Error`, so the
dispatcher writes a second response on top of the handler's write. -/
theorem c7_counterexample :
    serveHTTP sWP (ctxEx, none) rGet =
      { events := [Event.hWrite "partial", Event.httpError 500 "panic: boom"]
        handlerArgs := some [] } :=
  rfl

/-- C7 amended: whenever the handler ran and returned without panicking, the
dispatcher's error path writes nothing: the response consists exactly of the
handler's own writes, whether or not the handler wrote. -/
theorem c7_no_write_after_normal_return (s : Rest) (nc : Ctx × Option String)
    (r : Request) (ws : List String)
    (h : (serveBody s nc r).outcome = some (HOutcome.ok ws)) :
    serveHTTP s nc r =
      { events := ws.map Event.hWrite
        handlerArgs := (serveBody s nc r).calledArgs } := by
  have herr := serveBody_err_of_outcome s nc r _ h
  simp [serveHTTP, serveDefer, h, herr, handlerWrites]

/-- Witness for the amended C7 on the integer-capture route, whose handler
writes "done" and returns. -/
theorem c7_no_write_after_normal_return_witness :
    (serveBody exRestInt (ctxEx, none) reqHello42).outcome =
      some (HOutcome.ok ["done"]) ∧
    serveHTTP exRestInt (ctxEx, none) reqHello42 =
      { events := [Event.hWrite "done"], handlerArgs := some [Value.int 42] } :=
  ⟨rfl, c7_no_write_after_normal_return exRestInt (ctxEx, none) reqHello42 ["done"] rfl⟩

/-- C10: the error returned by `newContent` is tested against the wrong
variable (the still-nil outer `err` instead of the fresh `e`), so it is
discarded: dispatch behaves identically whether `newContent` reported an error
or not — no 400, no abort, and the returned context with its marshaller is
used either way. -/
theorem c10_newContent_error_discarded (s : Rest) (ctx : Ctx) (msg : String)
    (r : Request) :
    serveHTTP s (ctx, some msg) r = serveHTTP s (ctx, none) r := by
  unfold serveHTTP
  congr 1

/-- C6: if the service struct has no field named "Service", or that field is
not the first declared field, `New` returns an error (the source returns
`nil, err` on every error path, so no partially constructed router exists). -/
theorem c6_New_anchor_error
    (initService : List (String × String) → Except String (String × String × String))
    (newNode : String → Field → Except String node) (t : ServiceType)
    (h : fieldByName t.fields "Service" = none ∨
         ∃ i f, fieldByName t.fields "Service" = some (i, f) ∧ i ≠ 0) :
    ∃ e, New initService newNode t = Except.error e := by
  rcases h with h | ⟨i, f, hf, hi⟩
  · exact ⟨"can't find restful.Service field", by simp [New, h]⟩
  · exact ⟨t.name ++ "\x27s 1st field must be restful.Service", by simp [New, hf, hi]⟩

/-- Witness for C6 on a service type lacking the anchor field. -/
theorem c6_New_anchor_error_witness :
    fieldByName tNoService.fields "Service" = none ∧
    ∃ e, New initService0 newNode0 tNoService = Except.error e :=
  ⟨rfl, c6_New_anchor_error initService0 newNode0 tNoService (Or.inl rfl)⟩

/-- C9: for a routable field carrying no `func` tag, the binder resolves the
handler among the service's methods under the name "Handle" concatenated with
the field name. -/
theorem c9_default_func_name {α : Type} (methods : List (String × α))
    (tag : List (String × String)) (fieldName : String)
    (h : tagGet tag "func" = none) :
    bindHandler methods tag fieldName =
      (methods.find? (fun m => m.1 = "Handle" ++ fieldName)).map Prod.snd := by
  unfold bindHandler
  rw [show handlerName tag fieldName = "Handle" ++ fieldName by
    unfold handlerName; rw [h]]
  cases methods.find? (fun m => m.1 = "Handle" ++ fieldName) <;> rfl

/-- Witness for C9: the `CreateHello` field of `RestExample`, whose tag has no
`func` key, binds to the method named `HandleCreateHello`. -/
theorem c9_default_func_name_witness :
    tagGet createHelloTag "func" = none ∧
    bindHandler exampleMethods createHelloTag "CreateHello" = some 1 :=
  ⟨rfl, (c9_default_func_name exampleMethods createHelloTag "CreateHello" rfl).trans rfl⟩

end GoRest
